import Mathlib

/-!
Shallow embedding of the capture-orchestration core of the goTheSkyX
repository (file `TheSkyService.go`), together with theorems checking the
natural-language specification against it.

Modelling conventions:
* Go `float64` values are modelled as rationals (`ℚ`); all arithmetic the
  code performs on them (`+`, `*`, `math.Max`, `math.Min`, `math.Round`) is
  exact on the values involved.
* Go `error` results are modelled as `Option String` (`none` = nil error,
  `some msg` = error with message `msg`), and functions returning
  `(T, error)` become `T × Option String` for driver replies or
  `Except String T` for results the service produces.
* The external collaborators (TheSkyDriver = "Command Channel",
  goMockableDelay.DelayService = "Delay Provider") are modelled as response
  environments: a structure holding the reply each successive call would
  receive, indexed by call position where a call site is in a loop.
* The sequence of commands the service issues to its collaborators is
  recorded as a list of `Event`s, returned alongside the result.
-/

/-- Go `math.Round`: round to nearest integer, ties away from zero. -/
def goRound (x : ℚ) : ℤ := if 0 ≤ x then ⌊x + 1 / 2⌋ else -⌊-x + 1 / 2⌋

/-- `const AndALittleExtra = 0.5` (TheSkyService.go line 515). -/
def AndALittleExtra : ℚ := 0.5

/-- `const pollingInterval = 2.0` — seconds between polls (line 516). -/
def pollingInterval : ℚ := 2.0

/-- `const timeoutFactor = 5.0` (line 517). -/
def timeoutFactor : ℚ := 5.0

/-- `const shortTimeForBiasExposure = 0.1` (line 518). -/
def shortTimeForBiasExposure : ℚ := 0.1

/-- `const minimumTimeoutForDark = 10.0 * 60.0` (line 328). -/
def minimumTimeoutForDark : ℚ := 10.0 * 60.0

/-- `const minimumTimeoutForBias = 3.0 * 60.0` (line 329). -/
def minimumTimeoutForBias : ℚ := 3.0 * 60.0

/-- One logical command issued to a collaborator: start commands, poll
requests and the ADU measurement go to the Command Channel (driver), delay
requests go to the Delay Provider.  `delayReq n` records the requested
whole-second duration `n`. -/
inductive Event where
  | startDark (binning : ℤ) (seconds downloadTime : ℚ)
  | startBias (binning : ℤ) (downloadTime : ℚ)
  | startFlat (binning : ℤ) (exposure : ℚ) (filterSlot : ℤ) (downloadTime : ℚ)
      (saveImage : Bool)
  | delayReq (seconds : ℤ)
  | pollReq
  | aduReq
  | fwQueryReq
  | fwConnectReq
  | fwDisconnectReq
  deriving DecidableEq, Repr

/-- Responses the external collaborators would give during one capture call.
`delayResults k` is the reply of the `k`-th `DelayDuration` call (call `0`
is the initial delay, call `k+1` the `k`-th polling-interval delay): the
actual seconds delayed paired with the error.  `pollResults k` is the reply
of the `k`-th `IsCaptureDone` call.  `aduResult` is the `GetADUValue`
reply (used only by flat capture) and `randVal` the value the
`rand.Float64()` draw would return (used only by the flat simulation). -/
structure CaptureEnv where
  startErr : Option String
  delayResults : Nat → ℤ × Option String
  pollResults : Nat → Bool × Option String
  aduResult : ℤ × Option String
  randVal : ℚ

/-- The polling loop shared (verbatim, up to the operation name in the
timeout message) by `CaptureDarkFrame`, `CaptureBiasFrame` and
`CaptureAndMeasureFlatFrame`: poll `IsCaptureDone`; an error is returned
immediately; `done` returns success; otherwise if `secondsWaitedSoFar`
exceeds `maximumWaitSeconds` return the timeout error, else request a
polling-interval delay (its duration result is discarded at the call site:
`_, err := ...DelayDuration(...)`) and repeat with `secondsWaitedSoFar`
advanced by the nominal `pollingInterval`.  `k` is the index of the next
poll (poll `k` goes with delay call `k+1`); on success the final value of
`secondsWaitedSoFar` is returned.  The event list records the polls and
delay requests issued. -/
def captureLoop (opName : String) (poll : Nat → Bool × Option String)
    (delayErr : Nat → Option String) (maximumWaitSeconds : ℚ)
    (k : Nat) (secondsWaitedSoFar : ℚ) : Except String ℚ × List Event :=
  match poll k with
  | (_, some msg) => (.error msg, [.pollReq])
  | (true, none) => (.ok secondsWaitedSoFar, [.pollReq])
  | (false, none) =>
    if hw : secondsWaitedSoFar > maximumWaitSeconds then
      (.error (opName ++ ": Timeout waiting for capture to finish"), [.pollReq])
    else
      match delayErr (k + 1) with
      | some msg => (.error msg, [.pollReq, .delayReq (goRound pollingInterval)])
      | none =>
        let rest := captureLoop opName poll delayErr maximumWaitSeconds (k + 1)
          (secondsWaitedSoFar + pollingInterval)
        (rest.1, .pollReq :: .delayReq (goRound pollingInterval) :: rest.2)
  termination_by (⌈maximumWaitSeconds - secondsWaitedSoFar⌉ + 1).toNat
  decreasing_by
    push_neg at hw
    have hceil : (0 : ℤ) ≤ ⌈maximumWaitSeconds - secondsWaitedSoFar⌉ :=
      Int.ceil_nonneg (by linarith)
    have hsub : maximumWaitSeconds - (secondsWaitedSoFar + pollingInterval)
        = (maximumWaitSeconds - secondsWaitedSoFar) - ((2 : ℤ) : ℚ) := by
      simp [pollingInterval]
      ring
    rw [hsub, Int.ceil_sub_int]
    omega

/-- `maximumWaitSeconds` as computed by `CaptureDarkFrame` (line 539):
`math.Max((seconds+downloadTime)*timeoutFactor, minimumTimeoutForDark)`. -/
def maximumWaitDark (seconds downloadTime : ℚ) : ℚ :=
  max ((seconds + downloadTime) * timeoutFactor) minimumTimeoutForDark

/-- `maximumWaitSeconds` as computed by `CaptureBiasFrame` (line 586). -/
def maximumWaitBias (downloadTime : ℚ) : ℚ :=
  max ((shortTimeForBiasExposure + downloadTime) * timeoutFactor) minimumTimeoutForBias

/-- `maximumWaitSeconds` as computed by `CaptureAndMeasureFlatFrame`
(line 644): the floor is `minimumTimeoutForDark`, as for dark frames. -/
def maximumWaitFlat (exposure downloadTime : ℚ) : ℚ :=
  max ((exposure + downloadTime) * timeoutFactor) minimumTimeoutForDark

/-- `TheSkyServiceInstance.CaptureDarkFrame` (lines 520-565): start the dark
capture, return the driver's error if any; request the initial delay
`int(math.Round(seconds + downloadTime + AndALittleExtra))` from the Delay
Provider (duration result discarded, error fatal); then run the polling
loop.  Returns the Go `error` result paired with the issued-command trace. -/
def CaptureDarkFrame (env : CaptureEnv) (binning : ℤ)
    (seconds downloadTime : ℚ) : Except String Unit × List Event :=
  match env.startErr with
  | some msg => (.error msg, [.startDark binning seconds downloadTime])
  | none =>
    let delayUntilComplete := goRound (seconds + downloadTime + AndALittleExtra)
    match (env.delayResults 0).2 with
    | some msg =>
      (.error msg, [.startDark binning seconds downloadTime, .delayReq delayUntilComplete])
    | none =>
      let rest := captureLoop "TheSkyServiceInstance/CaptureDarkFrame"
        env.pollResults (fun k => (env.delayResults k).2)
        (maximumWaitDark seconds downloadTime) 0 0
      (rest.1.map fun _ => (),
        .startDark binning seconds downloadTime :: .delayReq delayUntilComplete :: rest.2)

/-- `TheSkyServiceInstance.CaptureBiasFrame` (lines 567-613): identical to
the dark capture except for the start command, the fixed short nominal
exposure `shortTimeForBiasExposure` and the bias timeout floor. -/
def CaptureBiasFrame (env : CaptureEnv) (binning : ℤ)
    (downloadTime : ℚ) : Except String Unit × List Event :=
  match env.startErr with
  | some msg => (.error msg, [.startBias binning downloadTime])
  | none =>
    let delayUntilComplete :=
      goRound (shortTimeForBiasExposure + downloadTime + AndALittleExtra)
    match (env.delayResults 0).2 with
    | some msg =>
      (.error msg, [.startBias binning downloadTime, .delayReq delayUntilComplete])
    | none =>
      let rest := captureLoop "TheSkyServiceInstance/CaptureBiasFrame"
        env.pollResults (fun k => (env.delayResults k).2)
        (maximumWaitBias downloadTime) 0 0
      (rest.1.map fun _ => (),
        .startBias binning downloadTime :: .delayReq delayUntilComplete :: rest.2)

/-- `TheSkyServiceInstance.simulatedFrameCapture` (lines 689-728): select a
(slope, intercept) curve from the fixed five-entry lookup keyed by
(binning, filterSlot), falling back to the first entry's curve; compute
`slope*exposure + intercept`; add multiplicative noise
`noiseFraction * (rand.Float64() - 0.5) * value`; `math.Round`; clamp with
`math.Min(_, 65535.0)` and convert to int64.  The Go method reads the
service fields `simulationNoiseFraction` and the `rand.Float64()` draw,
passed here as `noiseFraction` and `randVal`; its two unused parameters
(downloadTime, saveImage) are omitted. -/
def simulatedFrameCapture (noiseFraction randVal : ℚ) (exposure : ℚ)
    (binning filterSlot : ℤ) : ℤ :=
  let slopeIntercept : ℚ × ℚ :=
    if binning = 1 ∧ filterSlot = 4 then (721.8, 19817.0)
    else if binning = 2 ∧ filterSlot = 1 then (7336.7, -100.48)
    else if binning = 2 ∧ filterSlot = 2 then (11678.0, -293.09)
    else if binning = 2 ∧ filterSlot = 3 then (6820.4, 1858.3)
    else if binning = 1 ∧ filterSlot = 5 then (67.247, 2632.7)
    else (721.8, 19817.0)
  let calculatedResult := slopeIntercept.1 * exposure + slopeIntercept.2
  let randFactorZeroCentered := noiseFraction * (randVal - 0.5)
  let noisyResult := calculatedResult + randFactorZeroCentered * calculatedResult
  let roundedNoisyResult := goRound noisyResult
  min roundedNoisyResult 65535

/-- Outcome of a flat-frame capture call: a returned ADU value, a returned
Go `error`, or a run of the `panic` built-in (which aborts rather than
returning to the caller). -/
inductive FlatResult where
  | ok (adu : ℤ)
  | err (msg : String)
  | panicked (msg : String)
  deriving DecidableEq, Repr

/-- `TheSkyServiceInstance.CaptureAndMeasureFlatFrame` (lines 620-685):
a zero exposure runs `panic("Exposure=0")` before any command is issued;
otherwise start the flat capture, request the initial delay, and run the
polling loop; when a poll reports done, request `GetADUValue` (error
fatal), and if `simulateFlatCapture` is set override the measured value
with `simulatedFrameCapture` (the channel measurement is discarded).
`simulateFlatCapture` and `simulationNoiseFraction` are the service fields
of the same names. -/
def CaptureAndMeasureFlatFrame (env : CaptureEnv)
    (simulateFlatCapture : Bool) (simulationNoiseFraction : ℚ)
    (exposure : ℚ) (binning filterSlot : ℤ) (downloadTime : ℚ)
    (saveImage : Bool) : FlatResult × List Event :=
  if exposure = 0 then (.panicked "Exposure=0", [])
  else
    match env.startErr with
    | some msg => (.err msg, [.startFlat binning exposure filterSlot downloadTime saveImage])
    | none =>
      let delayUntilComplete := goRound (exposure + downloadTime + AndALittleExtra)
      match (env.delayResults 0).2 with
      | some msg =>
        (.err msg, [.startFlat binning exposure filterSlot downloadTime saveImage,
          .delayReq delayUntilComplete])
      | none =>
        let rest := captureLoop "TheSkyServiceInstance/CaptureAndMeasureFlatFrame"
          env.pollResults (fun k => (env.delayResults k).2)
          (maximumWaitFlat exposure downloadTime) 0 0
        let prefixTrace := Event.startFlat binning exposure filterSlot downloadTime saveImage
          :: Event.delayReq delayUntilComplete :: rest.2
        match rest.1 with
        | .error msg => (.err msg, prefixTrace)
        | .ok _ =>
          match env.aduResult with
          | (_, some msg) => (.err msg, prefixTrace ++ [.aduReq])
          | (aduValue, none) =>
            let finalAdu := if simulateFlatCapture then
              simulatedFrameCapture simulationNoiseFraction env.randVal
                exposure binning filterSlot
              else aduValue
            (.ok finalAdu, prefixTrace ++ [.aduReq])

/-- Responses the driver would give during one `HasFilterWheel` call:
the `FilterWheelIsConnected` reply, and the errors of the
`FilterWheelConnect` and `FilterWheelDisconnect` calls. -/
structure FilterWheelEnv where
  isConnected : Bool × Option String
  connectErr : Option String
  disconnectErr : Option String

/-- `TheSkyServiceInstance.HasFilterWheel` (lines 738-767): query the
connected state (an error is propagated); if connected, presence = true;
otherwise try to connect: a connect error means presence = false with nil
error, a successful connect means presence = true after a best-effort
disconnect whose result is discarded (`_ = ...FilterWheelDisconnect()`). -/
def HasFilterWheel (env : FilterWheelEnv) : Except String Bool × List Event :=
  match env.isConnected with
  | (_, some msg) => (.error msg, [.fwQueryReq])
  | (true, none) => (.ok true, [.fwQueryReq])
  | (false, none) =>
    match env.connectErr with
    | some _ => (.ok false, [.fwQueryReq, .fwConnectReq])
    | none => (.ok true, [.fwQueryReq, .fwConnectReq, .fwDisconnectReq])

/-- The whitespace test of Go `strings.TrimSpace` restricted to the ASCII
whitespace characters (space, tab, newline, vertical tab, form feed,
carriage return). -/
def goIsSpace (c : Char) : Bool :=
  c = ' ' ∨ c = '\t' ∨ c = '\n' ∨ c = '\x0b' ∨ c = '\x0c' ∨ c = '\r'

/-- Go `strings.TrimSpace`: drop leading and trailing whitespace.  Strings
are modelled as lists of characters. -/
def goTrimSpace (s : List Char) : List Char :=
  ((s.dropWhile goIsSpace).reverse.dropWhile goIsSpace).reverse

/-- Go `unicode` lowercase mapping restricted to ASCII letters. -/
def goToLowerChar (c : Char) : Char :=
  if 'A' ≤ c ∧ c ≤ 'Z' then Char.ofNat (c.toNat + 32) else c

/-- Go `strings.ToLower`, character by character. -/
def goToLower (s : List Char) : List Char := s.map goToLowerChar

/-- The counting loop of `TheSkyServiceInstance.NumberOfFilters`
(lines 785-792): count names up to, not including, the first name that is
blank after trimming. -/
def countToFirstBlank : List (List Char) → Nat
  | [] => 0
  | name :: rest =>
    if goTrimSpace name = [] then 0 else countToFirstBlank rest + 1

/-- The collecting loop of `TheSkyServiceInstance.FilterNames`
(lines 807-816): lowercase and trim each name, stop at the first one that
is blank, return the kept names. -/
def namesToFirstBlank : List (List Char) → List (List Char)
  | [] => []
  | name :: rest =>
    let nameTrimmed := goToLower (goTrimSpace name)
    if nameTrimmed = [] then [] else nameTrimmed :: namesToFirstBlank rest

/-- `TheSkyServiceInstance.NumberOfFilters` (lines 774-794) applied to the
driver's `FilterNames()` reply: propagate a driver error, otherwise count
to the first blank name. -/
def NumberOfFilters (reply : List (List Char) × Option String) : Except String Nat :=
  match reply.2 with
  | some msg => .error msg
  | none => .ok (countToFirstBlank reply.1)

/-- `TheSkyServiceInstance.FilterNames` (lines 796-818) applied to the
driver's `FilterNames()` reply: propagate a driver error, otherwise return
the lowercased, trimmed names up to the first blank one. -/
def FilterNames (reply : List (List Char) × Option String) :
    Except String (List (List Char)) :=
  match reply.2 with
  | some msg => .error msg
  | none => .ok (namesToFirstBlank reply.1)

/-- The command trace the polling loop produces when it issues `n`
polling-interval delays and then stops at a final poll: `n` repetitions of
poll-then-delay followed by one last poll. -/
def loopTrace : Nat → List Event
  | 0 => [.pollReq]
  | n + 1 => .pollReq :: .delayReq 2 :: loopTrace n

/-- The number of polls an always-not-done run performs before the timeout
error: one more than the largest `j` with `pollingInterval * j ≤ mw`. -/
def timeoutPollCount (mw : ℚ) : Nat := (⌊mw / pollingInterval⌋ + 1).toNat

/-- Error-free environment whose polls report done from poll `doneAt` on:
the "capture ready after `doneAt` extra waits" scenario of the tests. -/
def envDoneAt (doneAt : Nat) : CaptureEnv :=
  { startErr := none
    delayResults := fun _ => (1, none)
    pollResults := fun k => (decide (doneAt ≤ k), none)
    aduResult := (30000, none)
    randVal := 0 }

/-- Error-free environment whose polls never report done: the timeout
scenario of the tests. -/
def envNeverDone : CaptureEnv :=
  { startErr := none
    delayResults := fun _ => (1, none)
    pollResults := fun _ => (false, none)
    aduResult := (30000, none)
    randVal := 0 }

/-- The five-entry (binning, filterSlot) → (slope, intercept) lookup of the
Flat Simulation Model, with fallback to the first entry's curve, written
as a keyed lookup for comparison with the inline chain of the code. -/
def flatSimCurve (b f : ℤ) : ℚ × ℚ :=
  if (b, f) = ((1 : ℤ), (4 : ℤ)) then (721.8, 19817.0)
  else if (b, f) = ((2 : ℤ), (1 : ℤ)) then (7336.7, -100.48)
  else if (b, f) = ((2 : ℤ), (2 : ℤ)) then (11678.0, -293.09)
  else if (b, f) = ((2 : ℤ), (3 : ℤ)) then (6820.4, 1858.3)
  else if (b, f) = ((1 : ℤ), (5 : ℤ)) then (67.247, 2632.7)
  else (721.8, 19817.0)

/-- The Flat Simulation Model as the specification words it: look up the
curve, compute `value = slope*exposure + intercept`, add multiplicative
noise `noise_fraction * r * value` with `r = randVal - 1/2 ∈ [-1/2, 1/2)`,
round to nearest, clamp to at most 65535. -/
def flatSimSpec (nf r e : ℚ) (b f : ℤ) : ℤ :=
  let value := (flatSimCurve b f).1 * e + (flatSimCurve b f).2
  min (goRound (value + nf * (r - 1 / 2) * value)) 65535

/-- Replace the actual-duration components the Delay Provider reports for
successful delays, leaving everything else (including each delay's error
component) unchanged. -/
def withDelayDurations (env : CaptureEnv) (g : Nat → ℤ) : CaptureEnv :=
  { env with delayResults := fun k => (g k, (env.delayResults k).2) }

/-! ### Helper lemmas about the polling loop -/

theorem goRound_pollingInterval : goRound pollingInterval = 2 := by
  rw [goRound, pollingInterval]
  norm_num

theorem loopTrace_count_poll (n : Nat) :
    (loopTrace n).count .pollReq = n + 1 := by
  induction n with
  | zero => rfl
  | succ n ih => simp [loopTrace, List.count_cons, ih]

theorem loopTrace_count_delay (n : Nat) :
    (loopTrace n).count (.delayReq 2) = n := by
  induction n with
  | zero => rfl
  | succ n ih => simp [loopTrace, List.count_cons, ih]

/-- If polls `k, …, k+N-1` report not-done, poll `k+N` reports done, no
delay errors occur and the accumulated wait never exceeds the maximum
before the done poll, then the loop succeeds returning the accumulator
advanced by `N` nominal polling intervals, having issued `N+1` polls and
`N` polling-interval delay requests. -/
theorem captureLoop_success (opName : String) (poll : Nat → Bool × Option String)
    (delayErr : Nat → Option String) (mw : ℚ) (N : Nat) :
    ∀ (k : Nat) (w : ℚ),
    (∀ j, j < N → poll (k + j) = (false, none)) →
    poll (k + N) = (true, none) →
    (∀ j, delayErr j = none) →
    (∀ j, j < N → ¬ (w + pollingInterval * j > mw)) →
    captureLoop opName poll delayErr mw k w
      = (.ok (w + pollingInterval * N), loopTrace N) := by
  induction N with
  | zero =>
    intro k w _ hdone hdelay _
    rw [captureLoop]
    simp only [Nat.add_zero] at hdone
    rw [hdone]
    norm_num [loopTrace]
  | succ N ih =>
    intro k w hpoll hdone hdelay hbound
    rw [captureLoop]
    have h0 : poll k = (false, none) := by
      have := hpoll 0 (Nat.succ_pos N)
      simpa using this
    rw [h0]
    have hguard : ¬ (w > mw) := by
      have := hbound 0 (Nat.succ_pos N)
      simpa using this
    rw [dif_neg hguard, hdelay (k + 1)]
    have hrec := ih (k + 1) (w + pollingInterval)
      (fun j hj => by
        have := hpoll (j + 1) (Nat.succ_lt_succ hj)
        simpa [Nat.add_assoc, Nat.add_comm 1 j] using this)
      (by
        have := hdone
        simpa [Nat.add_assoc, Nat.add_comm 1 N] using this)
      hdelay
      (fun j hj => by
        have := hbound (j + 1) (Nat.succ_lt_succ hj)
        intro hcon
        apply this
        push_cast
        push_cast at hcon
        linarith)
    simp only [hrec]
    rw [goRound_pollingInterval]
    simp only [loopTrace, Prod.mk.injEq]
    refine ⟨?_, trivial⟩
    congr 1
    push_cast
    ring

/-- If polls `k, …, k+N` all report not-done, no delay errors occur, the
accumulated wait stays within the maximum for the first `N` polls and
exceeds it at poll `N`, then the loop returns the timeout error after
`N+1` polls and `N` polling-interval delay requests. -/
theorem captureLoop_timeout (opName : String) (poll : Nat → Bool × Option String)
    (delayErr : Nat → Option String) (mw : ℚ) (N : Nat) :
    ∀ (k : Nat) (w : ℚ),
    (∀ j, j ≤ N → poll (k + j) = (false, none)) →
    (∀ j, delayErr j = none) →
    (∀ j, j < N → ¬ (w + pollingInterval * j > mw)) →
    w + pollingInterval * N > mw →
    captureLoop opName poll delayErr mw k w
      = (.error (opName ++ ": Timeout waiting for capture to finish"), loopTrace N) := by
  induction N with
  | zero =>
    intro k w hpoll hdelay _ hexceed
    rw [captureLoop]
    have h0 : poll k = (false, none) := by simpa using hpoll 0 (Nat.le_refl 0)
    rw [h0]
    have hguard : w > mw := by
      have := hexceed
      push_cast at this
      linarith
    rw [dif_pos hguard]
    rfl
  | succ N ih =>
    intro k w hpoll hdelay hbound hexceed
    rw [captureLoop]
    have h0 : poll k = (false, none) := by simpa using hpoll 0 (Nat.zero_le _)
    rw [h0]
    have hguard : ¬ (w > mw) := by simpa using hbound 0 (Nat.succ_pos N)
    rw [dif_neg hguard, hdelay (k + 1)]
    have hrec := ih (k + 1) (w + pollingInterval)
      (fun j hj => by
        have := hpoll (j + 1) (Nat.succ_le_succ hj)
        simpa [Nat.add_assoc, Nat.add_comm 1 j] using this)
      hdelay
      (fun j hj => by
        have := hbound (j + 1) (Nat.succ_lt_succ hj)
        intro hcon
        apply this
        push_cast
        linarith)
      (by push_cast; push_cast at hexceed; linarith)
    simp only [hrec]
    rw [goRound_pollingInterval]
    simp [loopTrace]

/-- Inversion: with error-free polls and delays, if the loop returned the
timeout error then it did so right after a poll that reported not-done,
having issued `M+1` polls and `M` delays where `M` is the first index at
which the accumulated wait exceeded the maximum. -/
theorem captureLoop_timeout_inv (opName : String)
    (poll : Nat → Bool × Option String) (delayErr : Nat → Option String)
    (mw : ℚ) (k : Nat) (w : ℚ)
    (hpollerr : ∀ j, (poll j).2 = none)
    (hdelay : ∀ j, delayErr j = none)
    (htim : (captureLoop opName poll delayErr mw k w).1
      = .error (opName ++ ": Timeout waiting for capture to finish")) :
    ∃ M, (captureLoop opName poll delayErr mw k w).2 = loopTrace M
      ∧ poll (k + M) = (false, none)
      ∧ w + pollingInterval * M > mw := by
  by_cases hdone : (poll k).1 = true
  · exfalso
    have h0 : poll k = (true, none) := by
      have := hpollerr k
      cases hp : poll k with
      | mk b e =>
        rw [hp] at this hdone
        simp at this hdone
        simp [this, hdone]
    rw [captureLoop, h0] at htim
    simp at htim
  · have h0 : poll k = (false, none) := by
      have := hpollerr k
      cases hp : poll k with
      | mk b e =>
        rw [hp] at this hdone
        simp at this hdone
        simp [this, hdone]
    by_cases hguard : w > mw
    · refine ⟨0, ?_, by simpa using h0, by push_cast; simpa using hguard⟩
      rw [captureLoop, h0, dif_pos hguard]
      rfl
    · have hrec := captureLoop_timeout_inv opName poll delayErr mw (k + 1)
        (w + pollingInterval) hpollerr hdelay
        (by
          rw [captureLoop, h0, dif_neg hguard, hdelay (k + 1)] at htim
          simpa using htim)
      obtain ⟨M, htr, hpM, hex⟩ := hrec
      refine ⟨M + 1, ?_, ?_, ?_⟩
      · rw [captureLoop, h0, dif_neg hguard, hdelay (k + 1)]
        simp only [loopTrace, goRound_pollingInterval]
        simpa using htr
      · simpa [Nat.add_assoc, Nat.add_comm 1 M] using hpM
      · push_cast
        push_cast at hex
        linarith
  termination_by (⌈mw - w⌉ + 1).toNat
  decreasing_by
    push_neg at hguard
    have hceil : (0 : ℤ) ≤ ⌈mw - w⌉ := Int.ceil_nonneg (by linarith)
    have hsub : mw - (w + pollingInterval) = (mw - w) - ((2 : ℤ) : ℚ) := by
      simp [pollingInterval]
      ring
    rw [hsub, Int.ceil_sub_int]
    omega

theorem timeoutPollCount_exceeds (mw : ℚ) (h : 0 ≤ mw) :
    pollingInterval * (timeoutPollCount mw : ℚ) > mw := by
  have hfl : (0 : ℤ) ≤ ⌊mw / pollingInterval⌋ :=
    Int.floor_nonneg.mpr (div_nonneg h (by norm_num [pollingInterval]))
  have hcast : ((timeoutPollCount mw : ℤ) : ℚ) = (⌊mw / pollingInterval⌋ : ℚ) + 1 := by
    rw [timeoutPollCount, Int.toNat_of_nonneg (by omega)]
    push_cast
    ring
  have hlt : mw / pollingInterval < (⌊mw / pollingInterval⌋ : ℚ) + 1 :=
    Int.lt_floor_add_one _
  have hpos : (0 : ℚ) < pollingInterval := by norm_num [pollingInterval]
  have : mw < pollingInterval * ((⌊mw / pollingInterval⌋ : ℚ) + 1) := by
    have := (div_lt_iff hpos).mp hlt
    linarith [this]
  calc mw < pollingInterval * ((⌊mw / pollingInterval⌋ : ℚ) + 1) := this
    _ = pollingInterval * (timeoutPollCount mw : ℚ) := by
        rw [show ((timeoutPollCount mw : ℚ)) = (((timeoutPollCount mw : ℤ)) : ℚ) by push_cast; ring,
          hcast]

theorem timeoutPollCount_bound (mw : ℚ) (h : 0 ≤ mw) :
    ∀ j : Nat, j < timeoutPollCount mw → ¬ (pollingInterval * (j : ℚ) > mw) := by
  intro j hj hcon
  have hfl : (0 : ℤ) ≤ ⌊mw / pollingInterval⌋ :=
    Int.floor_nonneg.mpr (div_nonneg h (by norm_num [pollingInterval]))
  have hjle : (j : ℤ) ≤ ⌊mw / pollingInterval⌋ := by
    rw [timeoutPollCount] at hj
    omega
  have hjq : (j : ℚ) ≤ mw / pollingInterval :=
    le_trans (by exact_mod_cast hjle) (Int.floor_le _)
  have hpos : (0 : ℚ) < pollingInterval := by norm_num [pollingInterval]
  have : pollingInterval * (j : ℚ) ≤ mw := by
    have := (le_div_iff hpos).mp hjq
    linarith [this]
  linarith

/-- Conversion helper: a bound on `pollingInterval * (N - 1)` yields the
per-iteration non-exceedance hypothesis of the loop lemmas. -/
theorem pollBound_of (mw : ℚ) (N : Nat)
    (h : pollingInterval * ((N : ℚ) - 1) ≤ mw) :
    ∀ j : Nat, j < N → ¬ ((0 : ℚ) + pollingInterval * (j : ℚ) > mw) := by
  intro j hj hcon
  have hle : (j : ℚ) ≤ (N : ℚ) - 1 := by
    have : (j : ℚ) + 1 ≤ (N : ℚ) := by exact_mod_cast Nat.succ_le_of_lt hj
    linarith
  have hpos : (0 : ℚ) < pollingInterval := by norm_num [pollingInterval]
  have : pollingInterval * (j : ℚ) ≤ pollingInterval * ((N : ℚ) - 1) :=
    mul_le_mul_of_nonneg_left hle (le_of_lt hpos)
  linarith

/-! ### Concrete response environments used for instances -/

/-! ### Capture-level helper lemmas -/

theorem CaptureDarkFrame_success (env : CaptureEnv) (b : ℤ) (s d : ℚ) (N : Nat)
    (hstart : env.startErr = none)
    (hdelay : ∀ k, (env.delayResults k).2 = none)
    (hpoll : ∀ k, k < N → env.pollResults k = (false, none))
    (hdone : env.pollResults N = (true, none))
    (hbound : ∀ j : Nat, j < N → ¬ ((0 : ℚ) + pollingInterval * (j : ℚ) > maximumWaitDark s d)) :
    CaptureDarkFrame env b s d = (.ok (),
      .startDark b s d :: .delayReq (goRound (s + d + AndALittleExtra)) :: loopTrace N) := by
  rw [CaptureDarkFrame, hstart]
  rw [hdelay 0]
  have hloop := captureLoop_success "TheSkyServiceInstance/CaptureDarkFrame"
    env.pollResults (fun k => (env.delayResults k).2) (maximumWaitDark s d) N 0 0
    (fun j hj => by simpa using hpoll j hj)
    (by simpa using hdone)
    (fun j => hdelay j)
    hbound
  simp only [hloop]
  rfl

theorem CaptureBiasFrame_success (env : CaptureEnv) (b : ℤ) (d : ℚ) (N : Nat)
    (hstart : env.startErr = none)
    (hdelay : ∀ k, (env.delayResults k).2 = none)
    (hpoll : ∀ k, k < N → env.pollResults k = (false, none))
    (hdone : env.pollResults N = (true, none))
    (hbound : ∀ j : Nat, j < N → ¬ ((0 : ℚ) + pollingInterval * (j : ℚ) > maximumWaitBias d)) :
    CaptureBiasFrame env b d = (.ok (),
      .startBias b d :: .delayReq (goRound (shortTimeForBiasExposure + d + AndALittleExtra))
        :: loopTrace N) := by
  rw [CaptureBiasFrame, hstart]
  rw [hdelay 0]
  have hloop := captureLoop_success "TheSkyServiceInstance/CaptureBiasFrame"
    env.pollResults (fun k => (env.delayResults k).2) (maximumWaitBias d) N 0 0
    (fun j hj => by simpa using hpoll j hj)
    (by simpa using hdone)
    (fun j => hdelay j)
    hbound
  simp only [hloop]
  rfl

theorem CaptureAndMeasureFlatFrame_success (env : CaptureEnv)
    (simFlag : Bool) (nf : ℚ) (e : ℚ) (b f : ℤ) (d : ℚ) (sv : Bool) (N : Nat)
    (he : e ≠ 0)
    (hstart : env.startErr = none)
    (hdelay : ∀ k, (env.delayResults k).2 = none)
    (hpoll : ∀ k, k < N → env.pollResults k = (false, none))
    (hdone : env.pollResults N = (true, none))
    (hadu : env.aduResult.2 = none)
    (hbound : ∀ j : Nat, j < N → ¬ ((0 : ℚ) + pollingInterval * (j : ℚ) > maximumWaitFlat e d)) :
    CaptureAndMeasureFlatFrame env simFlag nf e b f d sv
      = (.ok (if simFlag then
            simulatedFrameCapture nf env.randVal e b f
          else env.aduResult.1),
        .startFlat b e f d sv :: .delayReq (goRound (e + d + AndALittleExtra))
          :: (loopTrace N ++ [.aduReq])) := by
  rw [CaptureAndMeasureFlatFrame, if_neg he, hstart]
  rw [hdelay 0]
  have hloop := captureLoop_success "TheSkyServiceInstance/CaptureAndMeasureFlatFrame"
    env.pollResults (fun k => (env.delayResults k).2) (maximumWaitFlat e d) N 0 0
    (fun j hj => by simpa using hpoll j hj)
    (by simpa using hdone)
    (fun j => hdelay j)
    hbound
  simp only [hloop]
  cases hAdu : env.aduResult with
  | mk v err =>
    rw [hAdu] at hadu
    simp at hadu
    subst hadu
    simp [hAdu]

theorem maximumWaitDark_nonneg (s d : ℚ) : 0 ≤ maximumWaitDark s d :=
  le_trans (by norm_num [minimumTimeoutForDark]) (le_max_right _ _)

theorem maximumWaitBias_nonneg (d : ℚ) : 0 ≤ maximumWaitBias d :=
  le_trans (by norm_num [minimumTimeoutForBias]) (le_max_right _ _)

theorem maximumWaitFlat_nonneg (e d : ℚ) : 0 ≤ maximumWaitFlat e d :=
  le_trans (by norm_num [minimumTimeoutForDark]) (le_max_right _ _)

theorem CaptureDarkFrame_timeout (env : CaptureEnv) (b : ℤ) (s d : ℚ)
    (hstart : env.startErr = none)
    (hdelay : ∀ k, (env.delayResults k).2 = none)
    (hpoll : ∀ k, env.pollResults k = (false, none)) :
    CaptureDarkFrame env b s d
      = (.error "TheSkyServiceInstance/CaptureDarkFrame: Timeout waiting for capture to finish",
        .startDark b s d :: .delayReq (goRound (s + d + AndALittleExtra))
          :: loopTrace (timeoutPollCount (maximumWaitDark s d))) := by
  rw [CaptureDarkFrame, hstart]
  rw [hdelay 0]
  have hnn := maximumWaitDark_nonneg s d
  have hloop := captureLoop_timeout "TheSkyServiceInstance/CaptureDarkFrame"
    env.pollResults (fun k => (env.delayResults k).2) (maximumWaitDark s d)
    (timeoutPollCount (maximumWaitDark s d)) 0 0
    (fun j _ => by simpa using hpoll j)
    (fun j => hdelay j)
    (fun j hj => by
      have := timeoutPollCount_bound (maximumWaitDark s d) hnn j hj
      simpa using this)
    (by
      have := timeoutPollCount_exceeds (maximumWaitDark s d) hnn
      simpa using this)
  simp only [hloop]
  rfl

theorem CaptureBiasFrame_timeout (env : CaptureEnv) (b : ℤ) (d : ℚ)
    (hstart : env.startErr = none)
    (hdelay : ∀ k, (env.delayResults k).2 = none)
    (hpoll : ∀ k, env.pollResults k = (false, none)) :
    CaptureBiasFrame env b d
      = (.error "TheSkyServiceInstance/CaptureBiasFrame: Timeout waiting for capture to finish",
        .startBias b d :: .delayReq (goRound (shortTimeForBiasExposure + d + AndALittleExtra))
          :: loopTrace (timeoutPollCount (maximumWaitBias d))) := by
  rw [CaptureBiasFrame, hstart]
  rw [hdelay 0]
  have hnn := maximumWaitBias_nonneg d
  have hloop := captureLoop_timeout "TheSkyServiceInstance/CaptureBiasFrame"
    env.pollResults (fun k => (env.delayResults k).2) (maximumWaitBias d)
    (timeoutPollCount (maximumWaitBias d)) 0 0
    (fun j _ => by simpa using hpoll j)
    (fun j => hdelay j)
    (fun j hj => by
      have := timeoutPollCount_bound (maximumWaitBias d) hnn j hj
      simpa using this)
    (by
      have := timeoutPollCount_exceeds (maximumWaitBias d) hnn
      simpa using this)
  simp only [hloop]
  rfl

theorem CaptureAndMeasureFlatFrame_timeout (env : CaptureEnv)
    (simFlag : Bool) (nf : ℚ) (e : ℚ) (b f : ℤ) (d : ℚ) (sv : Bool)
    (he : e ≠ 0)
    (hstart : env.startErr = none)
    (hdelay : ∀ k, (env.delayResults k).2 = none)
    (hpoll : ∀ k, env.pollResults k = (false, none)) :
    CaptureAndMeasureFlatFrame env simFlag nf e b f d sv
      = (.err "TheSkyServiceInstance/CaptureAndMeasureFlatFrame: Timeout waiting for capture to finish",
        .startFlat b e f d sv :: .delayReq (goRound (e + d + AndALittleExtra))
          :: loopTrace (timeoutPollCount (maximumWaitFlat e d))) := by
  rw [CaptureAndMeasureFlatFrame, if_neg he, hstart]
  rw [hdelay 0]
  have hnn := maximumWaitFlat_nonneg e d
  have hloop := captureLoop_timeout "TheSkyServiceInstance/CaptureAndMeasureFlatFrame"
    env.pollResults (fun k => (env.delayResults k).2) (maximumWaitFlat e d)
    (timeoutPollCount (maximumWaitFlat e d)) 0 0
    (fun j _ => by simpa using hpoll j)
    (fun j => hdelay j)
    (fun j hj => by
      have := timeoutPollCount_bound (maximumWaitFlat e d) hnn j hj
      simpa using this)
    (by
      have := timeoutPollCount_exceeds (maximumWaitFlat e d) hnn
      simpa using this)
  simp only [hloop]
  rfl

/-! ### Claim theorems -/

/-- C5: The filter-wheel presence query: if the connected-state query
reports connected, presence = true with no connect or disconnect call; if
not connected and the connect succeeds, presence = true after exactly one
disconnect call whose result is ignored; if the connect fails, presence =
false with no error; and a failure of the initial connected-state query is
propagated as an error. -/
theorem hasFilterWheel_presence_inference :
    (∀ (connected : Bool) (connectErr disconnectErr : Option String),
      HasFilterWheel ⟨(connected, none), connectErr, disconnectErr⟩ =
        if connected then (.ok true, [.fwQueryReq])
        else match connectErr with
          | some _ => (.ok false, [.fwQueryReq, .fwConnectReq])
          | none => (.ok true, [.fwQueryReq, .fwConnectReq, .fwDisconnectReq]))
    ∧ (∀ (connected : Bool) (msg : String) (connectErr disconnectErr : Option String),
      HasFilterWheel ⟨(connected, some msg), connectErr, disconnectErr⟩
        = (.error msg, [.fwQueryReq])) := by
  constructor
  · intro c ce de
    cases c <;> cases ce <;> rfl
  · intro c msg ce de
    cases c <;> rfl

theorem countToFirstBlank_eq_length (names : List (List Char)) :
    countToFirstBlank names = (namesToFirstBlank names).length := by
  induction names with
  | nil => rfl
  | cons n rest ih =>
    rw [countToFirstBlank, namesToFirstBlank]
    by_cases h : goTrimSpace n = []
    · simp [h, goToLower]
    · have h2 : goToLower (goTrimSpace n) ≠ [] := by
        simpa [goToLower] using h
      simp [h, h2, ih]

/-- C10: For every driver reply, `NumberOfFilters` equals the length of the
list `FilterNames` returns on the same reply: both stop at the first name
that is blank after trimming. -/
theorem numberOfFilters_eq_filterNames_length
    (reply : List (List Char) × Option String) :
    NumberOfFilters reply = (FilterNames reply).map List.length := by
  obtain ⟨names, err⟩ := reply
  cases err with
  | none => simp [NumberOfFilters, FilterNames, Except.map, countToFirstBlank_eq_length]
  | some msg => rfl

/-- C4 counterexample: with exposure exactly zero, the flat capture does
not surface a distinct error kind — it runs the `panic` crash/abort
primitive (though it does stop before issuing any command). -/
theorem flat_zero_exposure_cex :
    (CaptureAndMeasureFlatFrame (envDoneAt 0) false 0.2 0 1 1 5 false).1
        = .panicked "Exposure=0"
    ∧ ∀ msg, (CaptureAndMeasureFlatFrame (envDoneAt 0) false 0.2 0 1 1 5 false).1
        ≠ .err msg := by
  constructor
  · rw [CaptureAndMeasureFlatFrame, if_pos rfl]
  · intro msg
    rw [CaptureAndMeasureFlatFrame, if_pos rfl]
    simp

/-- C4 (amended): flat capture with an exposure of exactly zero fails
loudly and immediately, before issuing any command to the Command Channel,
but via the `panic` crash/abort primitive rather than a distinct returned
error kind. -/
theorem flat_zero_exposure_panics_before_any_command (env : CaptureEnv)
    (simFlag : Bool) (nf : ℚ) (b f : ℤ) (d : ℚ) (sv : Bool) :
    CaptureAndMeasureFlatFrame env simFlag nf 0 b f d sv
      = (.panicked "Exposure=0", []) := by
  rw [CaptureAndMeasureFlatFrame, if_pos rfl]

/-- C3: After a successful start, the initial delay requested from the
Delay Provider equals `round(exposure + downloadTime + 1/2)` whole seconds
(the grace margin `AndALittleExtra` is 0.5), for dark and flat captures;
in particular for exposure 20 and downloadTime 5 the request is 26. -/
theorem initial_delay_is_rounded_sum :
    (∀ (env : CaptureEnv) (b : ℤ) (e d : ℚ), 0 < e → 0 ≤ d →
      env.startErr = none →
      (CaptureDarkFrame env b e d).2.take 2
        = [.startDark b e d, .delayReq (goRound (e + d + 1 / 2))])
    ∧ (∀ (env : CaptureEnv) (simFlag : Bool) (nf : ℚ) (b f : ℤ) (e d : ℚ)
        (sv : Bool), 0 < e → 0 ≤ d → env.startErr = none →
      (CaptureAndMeasureFlatFrame env simFlag nf e b f d sv).2.take 2
        = [.startFlat b e f d sv, .delayReq (goRound (e + d + 1 / 2))])
    ∧ goRound (20 + 5 + 1 / 2) = 26
    ∧ AndALittleExtra = 1 / 2 := by
  have hgrace : AndALittleExtra = 1 / 2 := by norm_num [AndALittleExtra]
  refine ⟨?_, ?_, ?_, hgrace⟩
  · intro env b e d _ _ hstart
    rw [CaptureDarkFrame, hstart, hgrace]
    cases hd0 : (env.delayResults 0).2 with
    | some msg => rfl
    | none => rfl
  · intro env simFlag nf b f e d sv he _ hstart
    rw [CaptureAndMeasureFlatFrame, if_neg (ne_of_gt he), hstart, hgrace]
    cases hd0 : (env.delayResults 0).2 with
    | some msg => rfl
    | none =>
      rcases hloop : captureLoop "TheSkyServiceInstance/CaptureAndMeasureFlatFrame"
        env.pollResults (fun k => (env.delayResults k).2)
        (maximumWaitFlat e d) 0 0 with ⟨res, tr⟩
      cases res with
      | error msg => rfl
      | ok w =>
        rcases hadu : env.aduResult with ⟨v, verr⟩
        cases verr with
        | some msg => rfl
        | none => rfl
  · rw [goRound]
    norm_num

/-- C3 witness at a concrete input: dark frame, exposure 20, download 5. -/
theorem initial_delay_is_rounded_sum_witness :
    (CaptureDarkFrame (envDoneAt 0) 1 20 5).2.take 2
      = [.startDark 1 20 5, .delayReq (goRound (20 + 5 + 1 / 2))] :=
  initial_delay_is_rounded_sum.1 (envDoneAt 0) 1 20 5 (by norm_num) (by norm_num) rfl

/-- C7: the code's simulated frame capture equals the Flat Simulation
Model formula for every input; any (binning, filterSlot) pair outside the
five table keys falls back to the first entry's curve (slope 721.8,
intercept 19817.0); and with noise fraction 0, exposure 14, binning 2,
filterSlot 1 the result is `round(7336.7 × 14 + (-100.48))` clamped to at
most 65535, namely 65535. -/
theorem simulatedFrameCapture_formula :
    (∀ (nf r e : ℚ) (b f : ℤ),
      simulatedFrameCapture nf r e b f = flatSimSpec nf r e b f)
    ∧ (∀ b f : ℤ,
      ¬ ((b, f) ∈ ([(1, 4), (2, 1), (2, 2), (2, 3), (1, 5)] : List (ℤ × ℤ))) →
      flatSimCurve b f = (721.8, 19817.0))
    ∧ (∀ r : ℚ, simulatedFrameCapture 0 r 14 2 1
        = min (goRound (7336.7 * 14 + (-100.48))) 65535)
    ∧ simulatedFrameCapture 0 0 14 2 1 = 65535 := by
  have h1 : ∀ (nf r e : ℚ) (b f : ℤ),
      simulatedFrameCapture nf r e b f = flatSimSpec nf r e b f := by
    intro nf r e b f
    simp only [simulatedFrameCapture, flatSimSpec, flatSimCurve, Prod.mk.injEq]
    split_ifs <;>
      exact congrArg (fun z => min (goRound z) 65535) (by push_cast; ring)
  have hcurve : flatSimCurve 2 1 = (7336.7, -100.48) := by
    rw [flatSimCurve]
    norm_num
  have h3 : ∀ r : ℚ, simulatedFrameCapture 0 r 14 2 1
      = min (goRound (7336.7 * 14 + (-100.48))) 65535 := by
    intro r
    rw [h1]
    simp only [flatSimSpec, hcurve]
    exact congrArg (fun z => min (goRound z) 65535) (by ring)
  refine ⟨h1, ?_, h3, ?_⟩
  · intro b f h
    simp only [List.mem_cons, List.not_mem_nil, or_false] at h
    rw [flatSimCurve]
    split_ifs with h1 h2 h3 h4 h5
    · exact absurd (Or.inl h1) h
    · exact absurd (Or.inr (Or.inl h2)) h
    · exact absurd (Or.inr (Or.inr (Or.inl h3))) h
    · exact absurd (Or.inr (Or.inr (Or.inr (Or.inl h4)))) h
    · exact absurd (Or.inr (Or.inr (Or.inr (Or.inr h5)))) h
    · rfl
  · rw [h3 0, goRound]
    norm_num [min_def]

/-- C7 witness: the pair (3, 7) is outside the lookup table and falls back
to the first entry's curve. -/
theorem simulatedFrameCapture_formula_witness :
    ¬ ((3, 7) ∈ ([(1, 4), (2, 1), (2, 2), (2, 3), (1, 5)] : List (ℤ × ℤ)))
    ∧ flatSimCurve 3 7 = (721.8, 19817.0) :=
  ⟨by decide, simulatedFrameCapture_formula.2.1 3 7 (by decide)⟩

theorem maximumWaitDark_20_5 : maximumWaitDark 20 5 = 600 := by
  rw [maximumWaitDark, timeoutFactor, minimumTimeoutForDark]
  rw [max_eq_right] <;> norm_num

/-- Dark capture with polls not-done up to and including the first poll at
which the accumulated nominal wait exceeds the maximum: timeout error. -/
theorem CaptureDarkFrame_timeout_reachable (env : CaptureEnv) (b : ℤ) (s d : ℚ)
    (N : Nat)
    (hstart : env.startErr = none)
    (hdelay : ∀ k, (env.delayResults k).2 = none)
    (hpoll : ∀ j, j ≤ N → env.pollResults j = (false, none))
    (hbound : ∀ j : Nat, j < N → ¬ ((0 : ℚ) + pollingInterval * (j : ℚ) > maximumWaitDark s d))
    (hexceed : (0 : ℚ) + pollingInterval * (N : ℚ) > maximumWaitDark s d) :
    CaptureDarkFrame env b s d
      = (.error "TheSkyServiceInstance/CaptureDarkFrame: Timeout waiting for capture to finish",
        .startDark b s d :: .delayReq (goRound (s + d + AndALittleExtra)) :: loopTrace N) := by
  rw [CaptureDarkFrame, hstart]
  rw [hdelay 0]
  have hloop := captureLoop_timeout "TheSkyServiceInstance/CaptureDarkFrame"
    env.pollResults (fun k => (env.delayResults k).2) (maximumWaitDark s d) N 0 0
    (fun j hj => by simpa using hpoll j hj)
    (fun j => hdelay j)
    hbound
    hexceed
  simp only [hloop]
  rfl

/-- C1 counterexample: dark capture, binning 1, exposure 20, download 5,
with error-free channel and delays and polls reporting not-done 302 times
and then done — the claim's antecedent for N = 302 — does not succeed: it
returns the timeout error (the accumulated nominal wait exceeds the
600-second maximum after 301 polls, before the done poll is reached). -/
theorem capture_success_every_n_cex :
    (∀ k, k < 302 → (envDoneAt 302).pollResults k = (false, none))
    ∧ (envDoneAt 302).pollResults 302 = (true, none)
    ∧ (envDoneAt 302).startErr = none
    ∧ (∀ k, ((envDoneAt 302).delayResults k).2 = none)
    ∧ (CaptureDarkFrame (envDoneAt 302) 1 20 5).1
      = .error "TheSkyServiceInstance/CaptureDarkFrame: Timeout waiting for capture to finish" := by
  refine ⟨?_, rfl, rfl, fun k => rfl, ?_⟩
  · intro k hk
    simp only [envDoneAt, Prod.mk.injEq, and_true]
    rw [decide_eq_false_iff_not]
    omega
  · rw [CaptureDarkFrame_timeout_reachable (envDoneAt 302) 1 20 5 301 rfl
      (fun k => rfl)
      (fun j hj => by
        simp only [envDoneAt, Prod.mk.injEq, and_true]
        rw [decide_eq_false_iff_not]
        omega)
      (pollBound_of _ 301 (by rw [maximumWaitDark_20_5]; norm_num [pollingInterval]))
      (by rw [maximumWaitDark_20_5]; norm_num [pollingInterval])]

/-- C1 (amended): for every capture kind and every N ≥ 0, if the start
command and initial delay succeed, the completion poll returns false N
times and then true with no channel or delay errors, *and the accumulated
nominal wait does not exceed the maximum wait before the done poll* (which
the counterexample shows is a necessary proviso), the call succeeds having
issued exactly one start command, one initial-delay request, N+1
completion polls and N polling-interval delay requests, with
elapsed-seconds accounting equal to N × polling interval; for N = 0 no
polling-interval delay occurs. -/
theorem capture_succeeds_after_n_not_done_polls (env : CaptureEnv) (N : Nat)
    (hstart : env.startErr = none)
    (hdelay : ∀ k, (env.delayResults k).2 = none)
    (hpoll : ∀ k, k < N → env.pollResults k = (false, none))
    (hdone : env.pollResults N = (true, none)) :
    (∀ (b : ℤ) (s d : ℚ),
      (∀ j : Nat, j < N → ¬ ((0 : ℚ) + pollingInterval * (j : ℚ) > maximumWaitDark s d)) →
      CaptureDarkFrame env b s d = (.ok (),
        .startDark b s d :: .delayReq (goRound (s + d + AndALittleExtra)) :: loopTrace N))
    ∧ (∀ (b : ℤ) (d : ℚ),
      (∀ j : Nat, j < N → ¬ ((0 : ℚ) + pollingInterval * (j : ℚ) > maximumWaitBias d)) →
      CaptureBiasFrame env b d = (.ok (),
        .startBias b d :: .delayReq (goRound (shortTimeForBiasExposure + d + AndALittleExtra))
          :: loopTrace N))
    ∧ (∀ (simFlag : Bool) (nf e : ℚ) (b f : ℤ) (d : ℚ) (sv : Bool),
      e ≠ 0 → env.aduResult.2 = none →
      (∀ j : Nat, j < N → ¬ ((0 : ℚ) + pollingInterval * (j : ℚ) > maximumWaitFlat e d)) →
      CaptureAndMeasureFlatFrame env simFlag nf e b f d sv = (.ok
        (if simFlag then simulatedFrameCapture nf env.randVal e b f else env.aduResult.1),
        .startFlat b e f d sv :: .delayReq (goRound (e + d + AndALittleExtra))
          :: (loopTrace N ++ [.aduReq])))
    ∧ (∀ (opName : String) (mw : ℚ),
      (∀ j : Nat, j < N → ¬ ((0 : ℚ) + pollingInterval * (j : ℚ) > mw)) →
      captureLoop opName env.pollResults (fun k => (env.delayResults k).2) mw 0 0
        = (.ok (pollingInterval * (N : ℚ)), loopTrace N))
    ∧ (loopTrace N).count .pollReq = N + 1
    ∧ (loopTrace N).count (.delayReq 2) = N := by
  refine ⟨fun b s d hb => CaptureDarkFrame_success env b s d N hstart hdelay hpoll hdone hb,
    fun b d hb => CaptureBiasFrame_success env b d N hstart hdelay hpoll hdone hb,
    fun simFlag nf e b f d sv he hadu hb =>
      CaptureAndMeasureFlatFrame_success env simFlag nf e b f d sv N he hstart hdelay
        hpoll hdone hadu hb,
    fun opName mw hb => ?_,
    loopTrace_count_poll N, loopTrace_count_delay N⟩
  have := captureLoop_success opName env.pollResults (fun k => (env.delayResults k).2)
    mw N 0 0 (fun j hj => by simpa using hpoll j hj) (by simpa using hdone)
    (fun j => hdelay j) hb
  simpa using this

/-- C1 witness: dark capture, binning 1, exposure 20, download 5, done on
the third poll (N = 2). -/
theorem capture_succeeds_after_n_not_done_polls_witness :
    CaptureDarkFrame (envDoneAt 2) 1 20 5 = (.ok (),
      .startDark 1 20 5 :: .delayReq (goRound (20 + 5 + AndALittleExtra)) :: loopTrace 2) :=
  (capture_succeeds_after_n_not_done_polls (envDoneAt 2) 2 rfl (fun k => rfl)
    (by decide) rfl).1 1 20 5
    (pollBound_of _ 2 (by rw [maximumWaitDark_20_5]; norm_num [pollingInterval]))

/-- C2: if the completion poll always reports not-done and no channel or
delay error occurs, each capture kind fails with its timeout error, the
failure occurring at the first poll at which the accumulated nominal wait
exceeds `max(timeoutFactor × (exposure + downloadTime), kind floor)`
(`timeoutPollCount` polls are issued, and the characterization conjunct
states that this count is exactly the first index whose accumulated wait
exceeds the maximum); the floor is `minimumTimeoutForDark` = 600 s for
dark and flat captures and `minimumTimeoutForBias` = 180 s for bias
captures, and the maximum wait is at least the floor for every exposure
and downloadTime. -/
theorem capture_times_out_when_never_done (env : CaptureEnv)
    (hstart : env.startErr = none)
    (hdelay : ∀ k, (env.delayResults k).2 = none)
    (hpoll : ∀ k, env.pollResults k = (false, none)) :
    (∀ (b : ℤ) (s d : ℚ), CaptureDarkFrame env b s d
      = (.error "TheSkyServiceInstance/CaptureDarkFrame: Timeout waiting for capture to finish",
        .startDark b s d :: .delayReq (goRound (s + d + AndALittleExtra))
          :: loopTrace (timeoutPollCount (maximumWaitDark s d))))
    ∧ (∀ (b : ℤ) (d : ℚ), CaptureBiasFrame env b d
      = (.error "TheSkyServiceInstance/CaptureBiasFrame: Timeout waiting for capture to finish",
        .startBias b d :: .delayReq (goRound (shortTimeForBiasExposure + d + AndALittleExtra))
          :: loopTrace (timeoutPollCount (maximumWaitBias d))))
    ∧ (∀ (simFlag : Bool) (nf e : ℚ) (b f : ℤ) (d : ℚ) (sv : Bool), e ≠ 0 →
      CaptureAndMeasureFlatFrame env simFlag nf e b f d sv
      = (.err "TheSkyServiceInstance/CaptureAndMeasureFlatFrame: Timeout waiting for capture to finish",
        .startFlat b e f d sv :: .delayReq (goRound (e + d + AndALittleExtra))
          :: loopTrace (timeoutPollCount (maximumWaitFlat e d))))
    ∧ (∀ mw : ℚ, 0 ≤ mw →
        pollingInterval * (timeoutPollCount mw : ℚ) > mw
        ∧ ∀ j : Nat, j < timeoutPollCount mw → ¬ (pollingInterval * (j : ℚ) > mw))
    ∧ (∀ s d : ℚ, maximumWaitDark s d = max ((s + d) * timeoutFactor) 600
        ∧ 600 ≤ maximumWaitDark s d)
    ∧ (∀ e d : ℚ, maximumWaitFlat e d = max ((e + d) * timeoutFactor) 600
        ∧ 600 ≤ maximumWaitFlat e d)
    ∧ (∀ d : ℚ, maximumWaitBias d
          = max ((shortTimeForBiasExposure + d) * timeoutFactor) 180
        ∧ 180 ≤ maximumWaitBias d) := by
  refine ⟨fun b s d => CaptureDarkFrame_timeout env b s d hstart hdelay hpoll,
    fun b d => CaptureBiasFrame_timeout env b d hstart hdelay hpoll,
    fun simFlag nf e b f d sv he =>
      CaptureAndMeasureFlatFrame_timeout env simFlag nf e b f d sv he hstart hdelay hpoll,
    fun mw hmw => ⟨timeoutPollCount_exceeds mw hmw, timeoutPollCount_bound mw hmw⟩,
    fun s d => ⟨?_, ?_⟩, fun e d => ⟨?_, ?_⟩, fun d => ⟨?_, ?_⟩⟩
  · rw [maximumWaitDark, minimumTimeoutForDark]
    norm_num
  · exact le_trans (by norm_num [minimumTimeoutForDark]) (le_max_right _ _)
  · rw [maximumWaitFlat, minimumTimeoutForDark]
    norm_num
  · exact le_trans (by norm_num [minimumTimeoutForDark]) (le_max_right _ _)
  · rw [maximumWaitBias, minimumTimeoutForBias]
    norm_num
  · exact le_trans (by norm_num [minimumTimeoutForBias]) (le_max_right _ _)

/-- C2 witness: dark capture with exposure 20, download 5 against the
never-done environment returns the timeout error. -/
theorem capture_times_out_when_never_done_witness :
    CaptureDarkFrame envNeverDone 1 20 5
      = (.error "TheSkyServiceInstance/CaptureDarkFrame: Timeout waiting for capture to finish",
        .startDark 1 20 5 :: .delayReq (goRound (20 + 5 + AndALittleExtra))
          :: loopTrace (timeoutPollCount (maximumWaitDark 20 5))) :=
  (capture_times_out_when_never_done envNeverDone rfl (fun k => rfl)
    (fun k => rfl)).1 1 20 5

/-- C8: two runs differing only in the actual-duration values the Delay
Provider reports for successful delays produce identical command sequences
and outcomes, for every capture kind: the elapsed-time accumulator
advances by the nominal polling interval, never by the reported duration,
so the timeout decision is independent of those values. -/
theorem capture_independent_of_reported_delays (env : CaptureEnv) (g : Nat → ℤ) :
    (∀ (b : ℤ) (s d : ℚ),
      CaptureDarkFrame (withDelayDurations env g) b s d = CaptureDarkFrame env b s d)
    ∧ (∀ (b : ℤ) (d : ℚ),
      CaptureBiasFrame (withDelayDurations env g) b d = CaptureBiasFrame env b d)
    ∧ (∀ (simFlag : Bool) (nf e : ℚ) (b f : ℤ) (d : ℚ) (sv : Bool),
      CaptureAndMeasureFlatFrame (withDelayDurations env g) simFlag nf e b f d sv
        = CaptureAndMeasureFlatFrame env simFlag nf e b f d sv) :=
  ⟨fun b s d => rfl, fun b d => rfl, fun simFlag nf e b f d sv => rfl⟩

/-- C9: in every capture operation the completion check precedes the
timeout check within each polling iteration: a poll reporting done yields
success even when the accumulated nominal wait already exceeds the maximum
(first three conjuncts, whose hypotheses allow
`pollingInterval * N > maximumWait`), and with error-free collaborators a
timeout failure is only ever returned immediately after a poll that
reported not-complete (last three conjuncts: the trace ends with the
`M`-th poll, which returned `(false, none)`). -/
theorem completion_check_precedes_timeout_check :
    (∀ (env : CaptureEnv) (N : Nat) (b : ℤ) (s d : ℚ),
      env.startErr = none → (∀ k, (env.delayResults k).2 = none) →
      (∀ k, k < N → env.pollResults k = (false, none)) →
      env.pollResults N = (true, none) →
      (∀ j : Nat, j < N → ¬ ((0 : ℚ) + pollingInterval * (j : ℚ) > maximumWaitDark s d)) →
      pollingInterval * (N : ℚ) > maximumWaitDark s d →
      (CaptureDarkFrame env b s d).1 = .ok ())
    ∧ (∀ (env : CaptureEnv) (N : Nat) (b : ℤ) (d : ℚ),
      env.startErr = none → (∀ k, (env.delayResults k).2 = none) →
      (∀ k, k < N → env.pollResults k = (false, none)) →
      env.pollResults N = (true, none) →
      (∀ j : Nat, j < N → ¬ ((0 : ℚ) + pollingInterval * (j : ℚ) > maximumWaitBias d)) →
      pollingInterval * (N : ℚ) > maximumWaitBias d →
      (CaptureBiasFrame env b d).1 = .ok ())
    ∧ (∀ (env : CaptureEnv) (N : Nat) (simFlag : Bool) (nf e : ℚ) (b f : ℤ)
        (d : ℚ) (sv : Bool),
      e ≠ 0 → env.startErr = none → (∀ k, (env.delayResults k).2 = none) →
      (∀ k, k < N → env.pollResults k = (false, none)) →
      env.pollResults N = (true, none) → env.aduResult.2 = none →
      (∀ j : Nat, j < N → ¬ ((0 : ℚ) + pollingInterval * (j : ℚ) > maximumWaitFlat e d)) →
      pollingInterval * (N : ℚ) > maximumWaitFlat e d →
      (CaptureAndMeasureFlatFrame env simFlag nf e b f d sv).1
        = .ok (if simFlag then simulatedFrameCapture nf env.randVal e b f
            else env.aduResult.1))
    ∧ (∀ (env : CaptureEnv) (b : ℤ) (s d : ℚ),
      env.startErr = none → (∀ k, (env.delayResults k).2 = none) →
      (∀ k, (env.pollResults k).2 = none) →
      (CaptureDarkFrame env b s d).1
        = .error "TheSkyServiceInstance/CaptureDarkFrame: Timeout waiting for capture to finish" →
      ∃ M, env.pollResults M = (false, none)
        ∧ (0 : ℚ) + pollingInterval * (M : ℚ) > maximumWaitDark s d
        ∧ (CaptureDarkFrame env b s d).2
          = .startDark b s d :: .delayReq (goRound (s + d + AndALittleExtra)) :: loopTrace M)
    ∧ (∀ (env : CaptureEnv) (b : ℤ) (d : ℚ),
      env.startErr = none → (∀ k, (env.delayResults k).2 = none) →
      (∀ k, (env.pollResults k).2 = none) →
      (CaptureBiasFrame env b d).1
        = .error "TheSkyServiceInstance/CaptureBiasFrame: Timeout waiting for capture to finish" →
      ∃ M, env.pollResults M = (false, none)
        ∧ (0 : ℚ) + pollingInterval * (M : ℚ) > maximumWaitBias d
        ∧ (CaptureBiasFrame env b d).2
          = .startBias b d
            :: .delayReq (goRound (shortTimeForBiasExposure + d + AndALittleExtra))
            :: loopTrace M)
    ∧ (∀ (env : CaptureEnv) (simFlag : Bool) (nf e : ℚ) (b f : ℤ) (d : ℚ) (sv : Bool),
      e ≠ 0 → env.startErr = none → (∀ k, (env.delayResults k).2 = none) →
      (∀ k, (env.pollResults k).2 = none) → env.aduResult.2 = none →
      (CaptureAndMeasureFlatFrame env simFlag nf e b f d sv).1
        = .err "TheSkyServiceInstance/CaptureAndMeasureFlatFrame: Timeout waiting for capture to finish" →
      ∃ M, env.pollResults M = (false, none)
        ∧ (0 : ℚ) + pollingInterval * (M : ℚ) > maximumWaitFlat e d
        ∧ (CaptureAndMeasureFlatFrame env simFlag nf e b f d sv).2
          = .startFlat b e f d sv :: .delayReq (goRound (e + d + AndALittleExtra))
            :: loopTrace M) := by
  refine ⟨?_, ?_, ?_, ?_, ?_, ?_⟩
  · intro env N b s d hstart hdelay hpoll hdone hbound _
    rw [CaptureDarkFrame_success env b s d N hstart hdelay hpoll hdone hbound]
  · intro env N b d hstart hdelay hpoll hdone hbound _
    rw [CaptureBiasFrame_success env b d N hstart hdelay hpoll hdone hbound]
  · intro env N simFlag nf e b f d sv he hstart hdelay hpoll hdone hadu hbound _
    rw [CaptureAndMeasureFlatFrame_success env simFlag nf e b f d sv N he hstart
      hdelay hpoll hdone hadu hbound]
  · intro env b s d hstart hdelay hpollerr htim
    simp only [CaptureDarkFrame, hstart, hdelay 0] at htim ⊢
    have hmap : (captureLoop "TheSkyServiceInstance/CaptureDarkFrame" env.pollResults
        (fun k => (env.delayResults k).2) (maximumWaitDark s d) 0 0).1
        = .error "TheSkyServiceInstance/CaptureDarkFrame: Timeout waiting for capture to finish" := by
      cases h1 : (captureLoop "TheSkyServiceInstance/CaptureDarkFrame" env.pollResults
          (fun k => (env.delayResults k).2) (maximumWaitDark s d) 0 0).1 with
      | error m =>
        rw [h1] at htim
        simp only [Except.map, Except.error.injEq] at htim
        rw [htim]
      | ok w =>
        rw [h1] at htim
        simp [Except.map] at htim
    obtain ⟨M, htr, hpM, hex⟩ := captureLoop_timeout_inv
      "TheSkyServiceInstance/CaptureDarkFrame" env.pollResults
      (fun k => (env.delayResults k).2) (maximumWaitDark s d) 0 0 hpollerr
      (fun j => hdelay j) (by rw [hmap]; rfl)
    exact ⟨M, by simpa using hpM, hex, by rw [htr]⟩
  · intro env b d hstart hdelay hpollerr htim
    simp only [CaptureBiasFrame, hstart, hdelay 0] at htim ⊢
    have hmap : (captureLoop "TheSkyServiceInstance/CaptureBiasFrame" env.pollResults
        (fun k => (env.delayResults k).2) (maximumWaitBias d) 0 0).1
        = .error "TheSkyServiceInstance/CaptureBiasFrame: Timeout waiting for capture to finish" := by
      cases h1 : (captureLoop "TheSkyServiceInstance/CaptureBiasFrame" env.pollResults
          (fun k => (env.delayResults k).2) (maximumWaitBias d) 0 0).1 with
      | error m =>
        rw [h1] at htim
        simp only [Except.map, Except.error.injEq] at htim
        rw [htim]
      | ok w =>
        rw [h1] at htim
        simp [Except.map] at htim
    obtain ⟨M, htr, hpM, hex⟩ := captureLoop_timeout_inv
      "TheSkyServiceInstance/CaptureBiasFrame" env.pollResults
      (fun k => (env.delayResults k).2) (maximumWaitBias d) 0 0 hpollerr
      (fun j => hdelay j) (by rw [hmap]; rfl)
    exact ⟨M, by simpa using hpM, hex, by rw [htr]⟩
  · intro env simFlag nf e b f d sv he hstart hdelay hpollerr hadu htim
    simp only [CaptureAndMeasureFlatFrame, if_neg he, hstart, hdelay 0] at htim ⊢
    have hmap : (captureLoop "TheSkyServiceInstance/CaptureAndMeasureFlatFrame"
        env.pollResults (fun k => (env.delayResults k).2) (maximumWaitFlat e d) 0 0).1
        = .error "TheSkyServiceInstance/CaptureAndMeasureFlatFrame: Timeout waiting for capture to finish" := by
      cases h1 : (captureLoop "TheSkyServiceInstance/CaptureAndMeasureFlatFrame"
          env.pollResults (fun k => (env.delayResults k).2) (maximumWaitFlat e d) 0 0).1 with
      | error m =>
        rw [h1] at htim
        simp at htim
        rw [htim]
      | ok w =>
        rw [h1] at htim
        rcases hAdu : env.aduResult with ⟨v, verr⟩
        rw [hAdu] at hadu htim
        simp at hadu
        subst hadu
        simp at htim
    obtain ⟨M, htr, hpM, hex⟩ := captureLoop_timeout_inv
      "TheSkyServiceInstance/CaptureAndMeasureFlatFrame" env.pollResults
      (fun k => (env.delayResults k).2) (maximumWaitFlat e d) 0 0 hpollerr
      (fun j => hdelay j) (by rw [hmap]; rfl)
    refine ⟨M, by simpa using hpM, hex, ?_⟩
    simp only [hmap]
    rw [htr]

/-- C9 witness: dark capture reaching a done poll at index 301, where the
accumulated nominal wait 602 s already exceeds the 600 s maximum, still
succeeds. -/
theorem completion_check_precedes_timeout_check_witness :
    (CaptureDarkFrame (envDoneAt 301) 1 20 5).1 = .ok () :=
  completion_check_precedes_timeout_check.1 (envDoneAt 301) 301 1 20 5 rfl
    (fun k => rfl)
    (fun k hk => by
      simp only [envDoneAt, Prod.mk.injEq, and_true]
      rw [decide_eq_false_iff_not]
      omega)
    rfl
    (pollBound_of _ 301 (by rw [maximumWaitDark_20_5]; norm_num [pollingInterval]))
    (by rw [maximumWaitDark_20_5]; norm_num [pollingInterval])

/-- C6: flat capture issues the same command sequence to the collaborators
whether or not simulation mode is enabled (the brightness-measurement
command is still issued and its result discarded); with simulation enabled
a successful call returns exactly the Flat Simulation Model output for the
given (exposure, binning, filterSlot, noise draw), whereas with simulation
disabled it returns the channel-reported measurement; and a successful
simulated call has the measurement command in its trace. -/
theorem flat_simulation_overrides_measurement (env : CaptureEnv) (nf e : ℚ)
    (b f : ℤ) (d : ℚ) (sv : Bool) :
    (CaptureAndMeasureFlatFrame env true nf e b f d sv).2
      = (CaptureAndMeasureFlatFrame env false nf e b f d sv).2
    ∧ (CaptureAndMeasureFlatFrame env true nf e b f d sv).1
      = (match (CaptureAndMeasureFlatFrame env false nf e b f d sv).1 with
        | .ok _ => .ok (simulatedFrameCapture nf env.randVal e b f)
        | r => r)
    ∧ (∀ v, (CaptureAndMeasureFlatFrame env false nf e b f d sv).1 = .ok v →
        v = env.aduResult.1)
    ∧ (∀ v, (CaptureAndMeasureFlatFrame env true nf e b f d sv).1 = .ok v →
        .aduReq ∈ (CaptureAndMeasureFlatFrame env true nf e b f d sv).2) := by
  by_cases he : e = 0
  · subst he
    simp [CaptureAndMeasureFlatFrame]
  · simp only [CaptureAndMeasureFlatFrame, if_neg he]
    cases hs : env.startErr with
    | some msg => simp
    | none =>
      cases hd0 : (env.delayResults 0).2 with
      | some msg => simp
      | none =>
        cases hres : (captureLoop "TheSkyServiceInstance/CaptureAndMeasureFlatFrame"
            env.pollResults (fun k => (env.delayResults k).2)
            (maximumWaitFlat e d) 0 0).1 with
        | error msg => simp
        | ok w =>
          rcases hAdu : env.aduResult with ⟨v, verr⟩
          cases verr with
          | some msg => simp
          | none =>
            refine ⟨rfl, rfl, ?_, ?_⟩
            · intro v' hv'
              simp at hv'
              simp [hv']
            · intro v' _
              simp

/-- C6 witness: a flat capture that completes on the first poll with
simulation enabled still has the brightness-measurement command in its
issued-command trace. -/
theorem flat_simulation_overrides_measurement_witness :
    Event.aduReq ∈ (CaptureAndMeasureFlatFrame (envDoneAt 0) true 0 14 2 1 5 false).2 := by
  have hcap := CaptureAndMeasureFlatFrame_success (envDoneAt 0) true 0 14 2 1 5 false 0
    (by norm_num) rfl (fun k => rfl) (fun k hk => absurd hk (Nat.not_lt_zero k)) rfl rfl
    (fun j hj => absurd hj (Nat.not_lt_zero j))
  exact (flat_simulation_overrides_measurement (envDoneAt 0) 0 14 2 1 5 false).2.2.2 _
    (by rw [hcap])
